/-
Verification of the MODIS monthly aggregation script
(SPAI_MODIS_Workflow/code/MODIS_monthly_aggregation_code.py).

The script is a linear pandas pipeline:
  read two CSVs (16-day and 8-day MODIS products), parse the date column,
  group each table by (name, year, month) and take the mean of its variable
  subset, outer-merge the two monthly tables on the key, derive a
  month-start date, round the variable columns to 4 decimals, and write
  one Excel file.

Shallow embedding conventions:
  * a pandas cell that may be NaN is `Option ℚ` (`none` = NaN/missing);
  * `GroupBy.mean` skips NaN (pandas default `skipna=True`) and yields NaN
    for an all-NaN group, so it is the arithmetic mean of the `some` values
    and `none` when there are none;
  * `pd.merge(..., how='outer')` matches rows by key; keys present in only
    one side keep `none` (NaN) in the other side's columns;
  * `Series.round(4)` is numpy round-half-to-even at 4 decimals, modelled
    exactly on ℚ;
  * Python exceptions are the `Except` monad: the script has no try/except,
    so every failure propagates and no output value is produced;
  * the filesystem is a map `String → Option RawTable` for reads, and the
    single written file is the `Written` value returned on success.
-/
import Mathlib

namespace MODIS

/-- Calendar date, as produced by `pd.to_datetime` on (year, month, day)
columns. -/
structure DateYMD where
  year : ℤ
  month : ℤ
  day : ℤ
deriving DecidableEq, Repr

/-- A row of the 16-day CSV after column extraction: key columns plus the
16-day variable set `vars_16 = ['NDVI', 'EVI', 'VCI']`.  A variable cell is
`none` when the CSV cell is empty (NaN). -/
structure Row16 where
  name : String
  year : ℤ
  month : ℤ
  NDVI : Option ℚ
  EVI : Option ℚ
  VCI : Option ℚ
deriving DecidableEq, Repr

/-- A row of the 8-day CSV after column extraction: key columns plus the
8-day variable set `vars_8 = ['LAI', 'FAPAR', 'LST']`. -/
structure Row8 where
  name : String
  year : ℤ
  month : ℤ
  LAI : Option ℚ
  FAPAR : Option ℚ
  LST : Option ℚ
deriving DecidableEq, Repr

/-- The grouping key `['name', 'year', 'month']`. -/
abbrev Key := String × ℤ × ℤ

def key16 (r : Row16) : Key := (r.name, r.year, r.month)

def key8 (r : Row8) : Key := (r.name, r.year, r.month)

/-- One row of `monthly_16 = df_16.groupby(['name','year','month'],
as_index=False)[vars_16].mean()`. -/
structure Agg16 where
  name : String
  year : ℤ
  month : ℤ
  NDVI : Option ℚ
  EVI : Option ℚ
  VCI : Option ℚ
deriving DecidableEq, Repr

/-- One row of `monthly_8 = df_8.groupby(['name','year','month'],
as_index=False)[vars_8].mean()`. -/
structure Agg8 where
  name : String
  year : ℤ
  month : ℤ
  LAI : Option ℚ
  FAPAR : Option ℚ
  LST : Option ℚ
deriving DecidableEq, Repr

def keyA16 (a : Agg16) : Key := (a.name, a.year, a.month)

def keyA8 (a : Agg8) : Key := (a.name, a.year, a.month)

/-- `Series.mean()` with pandas' default `skipna=True`, applied to the list
of non-NaN values of a group: the arithmetic mean, or NaN (`none`) when the
group has no non-NaN value. -/
def meanOpt (l : List ℚ) : Option ℚ :=
  match l with
  | [] => none
  | _ => some (l.sum / l.length)

/-- The distinct group keys of a table, i.e. the keys of
`groupby(['name','year','month'])`.  (The script relies on nothing about
the order of the groups.) -/
def keysOf {α : Type} (key : α → Key) (rows : List α) : List Key :=
  (rows.map key).dedup

/-- The non-NaN values of column `f` in the group of key `k`: `GroupBy.mean`
averages exactly these. -/
def groupVals {α : Type} (key : α → Key) (f : α → Option ℚ) (rows : List α)
    (k : Key) : List ℚ :=
  (rows.filter (fun r => decide (key r = k))).filterMap f

/-- `monthly_16`: group the 16-day table by `['name','year','month']`
(`as_index=False`) and take the mean of each of `vars_16`. -/
def monthly_16 (rows : List Row16) : List Agg16 :=
  (keysOf key16 rows).map (fun k =>
    { name := k.1
      year := k.2.1
      month := k.2.2
      NDVI := meanOpt (groupVals key16 Row16.NDVI rows k)
      EVI := meanOpt (groupVals key16 Row16.EVI rows k)
      VCI := meanOpt (groupVals key16 Row16.VCI rows k) })

/-- `monthly_8`: group the 8-day table by `['name','year','month']`
(`as_index=False`) and take the mean of each of `vars_8`. -/
def monthly_8 (rows : List Row8) : List Agg8 :=
  (keysOf key8 rows).map (fun k =>
    { name := k.1
      year := k.2.1
      month := k.2.2
      LAI := meanOpt (groupVals key8 Row8.LAI rows k)
      FAPAR := meanOpt (groupVals key8 Row8.FAPAR rows k)
      LST := meanOpt (groupVals key8 Row8.LST rows k) })

/-- A row of `df_monthly` right after `pd.merge(monthly_16, monthly_8,
on=['name','year','month'], how='outer')`, before the `date` column is
added. -/
structure MRow0 where
  name : String
  year : ℤ
  month : ℤ
  NDVI : Option ℚ
  EVI : Option ℚ
  VCI : Option ℚ
  LAI : Option ℚ
  FAPAR : Option ℚ
  LST : Option ℚ
deriving DecidableEq, Repr

/-- A row of `df_monthly` after the `date` column is assigned. -/
structure MRow where
  name : String
  year : ℤ
  month : ℤ
  NDVI : Option ℚ
  EVI : Option ℚ
  VCI : Option ℚ
  LAI : Option ℚ
  FAPAR : Option ℚ
  LST : Option ℚ
  date : DateYMD
deriving DecidableEq, Repr

def keyM0 (m : MRow0) : Key := (m.name, m.year, m.month)

def keyM (m : MRow) : Key := (m.name, m.year, m.month)

/-- The rows of the right (8-day) table matching key `k` in the merge. -/
def matches8 (l8 : List Agg8) (k : Key) : List Agg8 :=
  l8.filter (fun b => decide (keyA8 b = k))

/-- The rows of the left (16-day) table matching key `k` in the merge. -/
def matches16 (l16 : List Agg16) (k : Key) : List Agg16 :=
  l16.filter (fun a => decide (keyA16 a = k))

/-- Merged row for a left key with no right match: the 8-day variable
columns are NaN. -/
def mkLeft (a : Agg16) : MRow0 :=
  ⟨a.name, a.year, a.month, a.NDVI, a.EVI, a.VCI, none, none, none⟩

/-- Merged row for a matched pair of keys. -/
def mkBoth (a : Agg16) (b : Agg8) : MRow0 :=
  ⟨a.name, a.year, a.month, a.NDVI, a.EVI, a.VCI, b.LAI, b.FAPAR, b.LST⟩

/-- Merged row for a right key with no left match: the 16-day variable
columns are NaN. -/
def mkRight (b : Agg8) : MRow0 :=
  ⟨b.name, b.year, b.month, none, none, none, b.LAI, b.FAPAR, b.LST⟩

/-- The merged rows contributed by one left row: one row per matching right
row, or a single row with NaN right columns when there is no match. -/
def joinRight (l8 : List Agg8) (a : Agg16) : List MRow0 :=
  let ms := matches8 l8 (keyA16 a)
  if ms.isEmpty then [mkLeft a] else ms.map (mkBoth a)

/-- The right rows whose key has no match in the left table; the outer
merge appends them with NaN left columns. -/
def rightOnly (l16 : List Agg16) (l8 : List Agg8) : List Agg8 :=
  l8.filter (fun b => (matches16 l16 (keyA8 b)).isEmpty)

/-- `pd.merge(monthly_16, monthly_8, on=['name','year','month'],
how='outer')`: every left row paired with its right matches (NaN right
columns when unmatched), followed by the unmatched right rows with NaN left
columns. -/
def mergeOuter (l16 : List Agg16) (l8 : List Agg8) : List MRow0 :=
  (l16.map (joinRight l8)).flatten ++ (rightOnly l16 l8).map mkRight

/-- `df_monthly['date'] = pd.to_datetime(df_monthly[['year','month']]
.assign(day=1))`: the month-start date for one row. -/
def addDateRow (m : MRow0) : MRow :=
  ⟨m.name, m.year, m.month, m.NDVI, m.EVI, m.VCI, m.LAI, m.FAPAR, m.LST,
    ⟨m.year, m.month, 1⟩⟩

/-- numpy/pandas round-half-to-even of a rational to an integer. -/
def roundHalfEven (q : ℚ) : ℤ :=
  if q - ⌊q⌋ < 1/2 then ⌊q⌋
  else if q - ⌊q⌋ > 1/2 then ⌊q⌋ + 1
  else if ⌊q⌋ % 2 = 0 then ⌊q⌋ else ⌊q⌋ + 1

/-- `Series.round(4)` on one value: round half to even at 4 decimal
places. -/
def round4 (q : ℚ) : ℚ := (roundHalfEven (q * 10000) : ℚ) / 10000

/-- The rounding loop `for col in vars_16 + vars_8: df_monthly[col] =
df_monthly[col].round(4)`, on one row; NaN stays NaN. -/
def roundRow (m : MRow) : MRow :=
  { m with
    NDVI := m.NDVI.map round4
    EVI := m.EVI.map round4
    VCI := m.VCI.map round4
    LAI := m.LAI.map round4
    FAPAR := m.FAPAR.map round4
    LST := m.LST.map round4 }

/-- The final `df_monthly` table: group both inputs, outer-merge, add the
month-start date, round the six variable columns. -/
def df_monthly (rs16 : List Row16) (rs8 : List Row8) : List MRow :=
  ((mergeOuter (monthly_16 rs16) (monthly_8 rs8)).map addDateRow).map roundRow

/-! ### The surrounding script: files, columns, errors, export -/

/-- A raw CSV cell: a string, a number, or empty (read as NaN). -/
inductive Cell where
  | str (s : String)
  | num (q : ℚ)
  | empty
deriving DecidableEq, Repr

/-- A table as `pd.read_csv` returns it: a list of column names and the
rows, each row giving a cell for each column name. -/
structure RawTable where
  cols : List String
  rows : List (String → Cell)

/-- Cell viewed as a string (for the `date` column). -/
def Cell.asStr : Cell → String
  | .str s => s
  | .num _ => ""
  | .empty => ""

/-- Cell viewed as a nullable number: an empty cell is NaN. -/
def Cell.asNum : Cell → Option ℚ
  | .num q => some q
  | _ => none

/-- Cell viewed as an integer (the `year` / `month` columns). -/
def Cell.asInt : Cell → ℤ
  | .num q => ⌊q⌋
  | _ => 0

/-- The exceptions the script can die with: `FileNotFoundError` from
`pd.read_csv`, `KeyError` from a column access, and a date `ParserError`
from `pd.to_datetime`.  The script installs no handler, so each one
propagates to the caller. -/
inductive PipeError where
  | fileNotFound (path : String)
  | keyError (col : String)
  | parseError (s : String)
deriving DecidableEq, Repr

def station_name : String := "ALGER_DAR_EL_BEIDA_AG"

def file_16day (station : String) : String :=
  "MODIS_TimeSeries_16Day_" ++ station ++ ".csv"

def file_8day (station : String) : String :=
  "MODIS_TimeSeries_8Day_" ++ station ++ ".csv"

def output_dir : String := "Monthly_data"

/-- `os.path.join(output_dir, f'MODIS_Monthly_{station_name}.xlsx')`. -/
def output_file (dir station : String) : String :=
  dir ++ "/" ++ ("MODIS_Monthly_" ++ station ++ ".xlsx")

def vars_16 : List String := ["NDVI", "EVI", "VCI"]

def vars_8 : List String := ["LAI", "FAPAR", "LST"]

/-- `pd.read_csv`: raises `FileNotFoundError` when the path is absent from
the filesystem (modelled as a partial map from paths to tables). -/
def readCSV (fs : String → Option RawTable) (path : String) :
    Except PipeError RawTable :=
  match fs path with
  | none => .error (.fileNotFound path)
  | some t => .ok t

/-- `df[c]`: raises `KeyError c` when the column is absent. -/
def getCol (t : RawTable) (c : String) : Except PipeError (List Cell) :=
  if c ∈ t.cols then .ok (t.rows.map (fun r => r c)) else .error (.keyError c)

/-- `pd.to_datetime` over a column, for an abstract date parser `pd`:
fails on the first unparseable value. -/
def parseCol (pd : String → Option DateYMD) :
    List Cell → Except PipeError (List DateYMD)
  | [] => .ok []
  | c :: t =>
    match pd c.asStr with
    | none => .error (.parseError c.asStr)
    | some d => (parseCol pd t).map (fun ds => d :: ds)

/-- Raise `KeyError` on the first required column missing from the table
(as the groupby / column selection would). -/
def requireCols (t : RawTable) (cs : List String) : Except PipeError Unit :=
  match cs.find? (fun c => !(decide (c ∈ t.cols))) with
  | some c => .error (.keyError c)
  | none => .ok ()

/-- Typed extraction of the columns that
`groupby(['name','year','month'])[vars_16].mean()` touches. -/
def extract16 (t : RawTable) : Except PipeError (List Row16) := do
  requireCols t (["name", "year", "month"] ++ vars_16)
  .ok (t.rows.map (fun r =>
    ⟨(r "name").asStr, (r "year").asInt, (r "month").asInt,
      (r "NDVI").asNum, (r "EVI").asNum, (r "VCI").asNum⟩))

/-- Typed extraction of the columns that
`groupby(['name','year','month'])[vars_8].mean()` touches. -/
def extract8 (t : RawTable) : Except PipeError (List Row8) := do
  requireCols t (["name", "year", "month"] ++ vars_8)
  .ok (t.rows.map (fun r =>
    ⟨(r "name").asStr, (r "year").asInt, (r "month").asInt,
      (r "LAI").asNum, (r "FAPAR").asNum, (r "LST").asNum⟩))

/-- Column order of each aggregate (groupby with `as_index=False` keeps the
key columns first, then the selected variables). -/
def cols16 : List String := ["name", "year", "month"] ++ vars_16

def cols8 : List String := ["name", "year", "month"] ++ vars_8

/-- Column order after the merge: left columns, then the right columns that
are not join keys. -/
def mergeCols : List String :=
  cols16 ++ cols8.filter (fun c => !(["name", "year", "month"].contains c))

/-- Column order of the exported table: assigning `df_monthly['date']`
appends the new column last. -/
def outCols : List String := mergeCols ++ ["date"]

/-- The one file the script writes (`df_monthly.to_excel(output_file,
index=False)`), plus the directory ensured beforehand by
`os.makedirs(output_dir, exist_ok=True)`. -/
structure Written where
  dirEnsured : String
  path : String
  columns : List String
  table : List MRow
deriving Repr

/-- The whole script, from `pd.read_csv` to `to_excel`, with the date
parser and the filesystem abstracted.  No step is wrapped in a handler:
the first failure is the script's result, and only the final step produces
the written file. -/
def run (pd : String → Option DateYMD) (fs : String → Option RawTable)
    (station dir : String) : Except PipeError Written := do
  let t16 ← readCSV fs (file_16day station)
  let t8 ← readCSV fs (file_8day station)
  let d16 ← getCol t16 "date"
  let _ ← parseCol pd d16
  let d8 ← getCol t8 "date"
  let _ ← parseCol pd d8
  let rows16 ← extract16 t16
  let rows8 ← extract8 t8
  .ok ⟨dir, output_file dir station, outCols, df_monthly rows16 rows8⟩

/-! ### A concrete run: the spec's end-to-end example

Station "X": a 16-day file with exactly two February 2020 rows carrying
NDVI 0.40 and 0.60 (all other variable cells empty), and an 8-day file
with exactly one row for the same key carrying LST 300.0. -/

def exTable16 : RawTable :=
  ⟨["name", "date", "year", "month", "NDVI", "EVI", "VCI"],
   [fun c =>
      if c = "name" then .str "X"
      else if c = "date" then .str "2020-02-01"
      else if c = "year" then .num 2020
      else if c = "month" then .num 2
      else if c = "NDVI" then .num (2/5)
      else .empty,
    fun c =>
      if c = "name" then .str "X"
      else if c = "date" then .str "2020-02-17"
      else if c = "year" then .num 2020
      else if c = "month" then .num 2
      else if c = "NDVI" then .num (3/5)
      else .empty]⟩

def exTable8 : RawTable :=
  ⟨["name", "date", "year", "month", "LAI", "FAPAR", "LST"],
   [fun c =>
      if c = "name" then .str "X"
      else if c = "date" then .str "2020-02-02"
      else if c = "year" then .num 2020
      else if c = "month" then .num 2
      else if c = "LST" then .num 300
      else .empty]⟩

/-- The example filesystem: exactly the two input files for station "X". -/
def exFS : String → Option RawTable := fun p =>
  if p = file_16day "X" then some exTable16
  else if p = file_8day "X" then some exTable8
  else none

/-- An example date parser (the parsed dates are discarded by the pipeline,
which rebuilds `date` from (year, month)). -/
def exParse : String → Option DateYMD := fun _ => some ⟨2020, 2, 1⟩

/-- The file the example run writes. -/
def exWritten : Written :=
  ⟨output_dir, output_file output_dir "X", outCols,
    [⟨"X", 2020, 2, some (1/2), none, none, none, none, some 300,
      ⟨2020, 2, 1⟩⟩]⟩

/-! ### Lemmas about rounding -/

lemma roundHalfEven_intCast (n : ℤ) : roundHalfEven (n : ℚ) = n := by
  have h0 : ((n : ℚ) - ⌊(n : ℚ)⌋ : ℚ) = 0 := by
    rw [Int.floor_intCast]; ring
  unfold roundHalfEven
  rw [h0, Int.floor_intCast]
  norm_num

/-- A value that is an integer multiple of `1/10000` is a fixed point of
4-decimal rounding. -/
lemma round4_div_10000 (n : ℤ) : round4 ((n : ℚ) / 10000) = (n : ℚ) / 10000 := by
  have h : ((n : ℚ) / 10000) * 10000 = (n : ℚ) := by
    field_simp
  rw [round4, h, roundHalfEven_intCast]

lemma round4_round4 (q : ℚ) : round4 (round4 q) = round4 q := by
  have h : round4 q = ((roundHalfEven (q * 10000) : ℤ) : ℚ) / 10000 := rfl
  rw [h, round4_div_10000]

lemma map_round4_round4 (x : Option ℚ) :
    (x.map round4).map round4 = x.map round4 := by
  cases x with
  | none => rfl
  | some a => simp [round4_round4]

lemma roundRow_roundRow (m : MRow) : roundRow (roundRow m) = roundRow m := by
  cases m
  simp only [roundRow, map_round4_round4]

/-! ### Lemmas about group keys, the aggregates and the merge -/

lemma keyA16_monthly_16 (rs : List Row16) :
    (monthly_16 rs).map keyA16 = keysOf key16 rs := by
  unfold monthly_16
  rw [List.map_map]
  conv_rhs => rw [← List.map_id (keysOf key16 rs)]
  refine List.map_congr_left ?_
  rintro ⟨a, b, c⟩ _
  rfl

lemma keyA8_monthly_8 (rs : List Row8) :
    (monthly_8 rs).map keyA8 = keysOf key8 rs := by
  unfold monthly_8
  rw [List.map_map]
  conv_rhs => rw [← List.map_id (keysOf key8 rs)]
  refine List.map_congr_left ?_
  rintro ⟨a, b, c⟩ _
  rfl

lemma nodup_keysOf {α : Type} (key : α → Key) (rows : List α) :
    (keysOf key rows).Nodup :=
  List.nodup_dedup _

/-- In a table with pairwise distinct keys, at most one row matches a given
key. -/
lemma length_filter_key_le_one {α : Type} (key : α → Key) (l : List α)
    (hl : (l.map key).Nodup) (k : Key) :
    (l.filter (fun b => decide (key b = k))).length ≤ 1 := by
  induction l with
  | nil => simp
  | cons a t ih =>
    rw [List.map_cons, List.nodup_cons] at hl
    by_cases hak : key a = k
    · rw [List.filter_cons_of_pos (by simpa using hak)]
      have ht : t.filter (fun b => decide (key b = k)) = [] := by
        rw [List.filter_eq_nil_iff]
        intro x hx
        simp only [decide_eq_true_eq]
        intro hxk
        apply hl.1
        rw [hak, ← hxk]
        exact List.mem_map_of_mem key hx
      rw [ht]
      simp
    · rw [List.filter_cons_of_neg (by simpa using hak)]
      exact ih hl.2

/-- When right keys are distinct, each left row contributes exactly one
merged row, carrying the left row's key. -/
lemma joinRight_map_key (l8 : List Agg8) (h8 : (l8.map keyA8).Nodup)
    (a : Agg16) : (joinRight l8 a).map keyM0 = [keyA16 a] := by
  unfold joinRight
  cases hms : (matches8 l8 (keyA16 a)).isEmpty with
  | true =>
    simp only [hms, if_true]
    rfl
  | false =>
    simp only [hms, Bool.false_eq_true, if_false]
    have hne : matches8 l8 (keyA16 a) ≠ [] := by
      intro h
      rw [h] at hms
      simp at hms
    have hle : (matches8 l8 (keyA16 a)).length ≤ 1 :=
      length_filter_key_le_one keyA8 l8 h8 (keyA16 a)
    have hpos : 0 < (matches8 l8 (keyA16 a)).length := List.length_pos.mpr hne
    have h1 : (matches8 l8 (keyA16 a)).length = 1 := by omega
    obtain ⟨b, hb⟩ := List.length_eq_one.mp h1
    rw [hb]
    rfl

/-- The keys of the merged table: the left keys (in order), then the keys
of the unmatched right rows. -/
lemma mergeOuter_map_key (l16 : List Agg16) (l8 : List Agg8)
    (h8 : (l8.map keyA8).Nodup) :
    (mergeOuter l16 l8).map keyM0
      = l16.map keyA16 ++ (rightOnly l16 l8).map keyA8 := by
  unfold mergeOuter
  rw [List.map_append, List.map_flatten, List.map_map]
  congr 1
  · induction l16 with
    | nil => rfl
    | cons a t ih =>
      simp only [List.map_cons, List.flatten_cons, Function.comp_apply,
        joinRight_map_key l8 h8 a, ih]
      rfl
  · rw [List.map_map]
    refine List.map_congr_left ?_
    intro b _
    rfl

/-- When both sides have pairwise distinct keys, so does the merged
table. -/
lemma nodup_mergeOuter (l16 : List Agg16) (l8 : List Agg8)
    (h16 : (l16.map keyA16).Nodup) (h8 : (l8.map keyA8).Nodup) :
    ((mergeOuter l16 l8).map keyM0).Nodup := by
  rw [mergeOuter_map_key l16 l8 h8, List.nodup_append]
  refine ⟨h16, ?_, ?_⟩
  · exact ((List.filter_sublist l8).map keyA8).nodup h8
  · intro k hk16 hk8
    obtain ⟨a, ha, hka⟩ := List.mem_map.mp hk16
    obtain ⟨b, hb, hkb⟩ := List.mem_map.mp hk8
    have hbmem := List.mem_filter.mp hb
    have hempty : matches16 l16 (keyA8 b) = [] :=
      List.isEmpty_iff.mp hbmem.2
    have hne : keyA16 a ≠ keyA8 b := by
      have h := List.filter_eq_nil_iff.mp hempty a ha
      simpa using h
    exact hne (hka.trans hkb.symm)

/-- A left row whose key has no right match contributes `mkLeft a` to the
merge. -/
lemma mkLeft_mem_mergeOuter (l16 : List Agg16) (l8 : List Agg8) (a : Agg16)
    (ha : a ∈ l16) (hk : keyA16 a ∉ l8.map keyA8) :
    mkLeft a ∈ mergeOuter l16 l8 := by
  apply List.mem_append_left
  rw [List.mem_flatten]
  refine ⟨joinRight l8 a, List.mem_map_of_mem _ ha, ?_⟩
  have hms : matches8 l8 (keyA16 a) = [] := by
    rw [matches8, List.filter_eq_nil_iff]
    intro b hb
    simp only [decide_eq_true_eq]
    intro hkb
    exact hk (hkb ▸ List.mem_map_of_mem keyA8 hb)
  show mkLeft a ∈
    (if (matches8 l8 (keyA16 a)).isEmpty then [mkLeft a]
     else (matches8 l8 (keyA16 a)).map (mkBoth a))
  rw [hms]
  simp

/-- A right row whose key has no left match contributes `mkRight b` to the
merge. -/
lemma mkRight_mem_mergeOuter (l16 : List Agg16) (l8 : List Agg8) (b : Agg8)
    (hb : b ∈ l8) (hk : keyA8 b ∉ l16.map keyA16) :
    mkRight b ∈ mergeOuter l16 l8 := by
  apply List.mem_append_right
  apply List.mem_map_of_mem
  rw [rightOnly, List.mem_filter]
  refine ⟨hb, ?_⟩
  have hms : matches16 l16 (keyA8 b) = [] := by
    rw [matches16, List.filter_eq_nil_iff]
    intro a ha
    simp only [decide_eq_true_eq]
    intro hka
    exact hk (hka ▸ List.mem_map_of_mem keyA16 ha)
  rw [hms]
  rfl

/-- Merged rows survive the date and rounding steps into `df_monthly`. -/
lemma mem_df_monthly_of_mem_merge {rs16 : List Row16} {rs8 : List Row8}
    {m0 : MRow0} (h : m0 ∈ mergeOuter (monthly_16 rs16) (monthly_8 rs8)) :
    roundRow (addDateRow m0) ∈ df_monthly rs16 rs8 :=
  List.mem_map_of_mem roundRow (List.mem_map_of_mem addDateRow h)

/-- `addDateRow` then `roundRow` leave the key columns unchanged. -/
lemma df_monthly_map_key (rs16 : List Row16) (rs8 : List Row8) :
    (df_monthly rs16 rs8).map keyM
      = (mergeOuter (monthly_16 rs16) (monthly_8 rs8)).map keyM0 := by
  unfold df_monthly
  rw [List.map_map, List.map_map]
  refine List.map_congr_left ?_
  intro m _
  cases m
  rfl

/-! ### Lemmas about the fallible part of the pipeline -/

lemma except_bind_ok {ε α β : Type} {x : Except ε α} {f : α → Except ε β}
    {b : β} (h : x >>= f = .ok b) : ∃ a, x = .ok a ∧ f a = .ok b := by
  cases x with
  | error e => simp [Bind.bind, Except.bind] at h
  | ok a => exact ⟨a, rfl, by simpa [Bind.bind, Except.bind] using h⟩

/-- A column with an unparseable value makes `pd.to_datetime` raise on some
such value. -/
lemma parseCol_error (pd : String → Option DateYMD) (cells : List Cell)
    (h : ∃ c ∈ cells, pd c.asStr = none) :
    ∃ s, pd s = none ∧ parseCol pd cells = .error (.parseError s) := by
  induction cells with
  | nil =>
    obtain ⟨c, hc, _⟩ := h
    exact absurd hc (List.not_mem_nil c)
  | cons c t ih =>
    cases hpc : pd c.asStr with
    | none =>
      refine ⟨c.asStr, hpc, ?_⟩
      unfold parseCol
      rw [hpc]
    | some d =>
      have h' : ∃ x ∈ t, pd x.asStr = none := by
        obtain ⟨x, hx, hpx⟩ := h
        rcases List.mem_cons.mp hx with rfl | hxt
        · rw [hpc] at hpx
          exact absurd hpx (by simp)
        · exact ⟨x, hxt, hpx⟩
      obtain ⟨s, hs, hrec⟩ := ih h'
      refine ⟨s, hs, ?_⟩
      unfold parseCol
      rw [hpc, hrec]
      rfl

/-- A missing required column makes the column check raise a key error
naming a missing column. -/
lemma requireCols_error (t : RawTable) (cs : List String)
    (h : ∃ c ∈ cs, c ∉ t.cols) :
    ∃ c, c ∉ t.cols ∧ requireCols t cs = .error (.keyError c) := by
  cases hf : cs.find? (fun c => !(decide (c ∈ t.cols))) with
  | none =>
    exfalso
    obtain ⟨c, hc, hnc⟩ := h
    have hfc := List.find?_eq_none.mp hf c hc
    simp only [Bool.not_eq_true', Bool.not_eq_false, decide_eq_true_eq] at hfc
    exact hnc hfc
  | some c =>
    have hp := List.find?_some hf
    simp only [Bool.not_eq_true', Bool.not_eq_false, decide_eq_false_iff_not] at hp
    exact ⟨c, hp, by unfold requireCols; rw [hf]⟩

/-- A successful run's payload is exactly the exported table built from
the two extracted inputs. -/
lemma run_ok_inv {pd : String → Option DateYMD}
    {fs : String → Option RawTable} {station dir : String} {w : Written}
    (h : run pd fs station dir = .ok w) :
    ∃ rs16 rs8,
      w = ⟨dir, output_file dir station, outCols, df_monthly rs16 rs8⟩ := by
  unfold run at h
  obtain ⟨t16, h1, h⟩ := except_bind_ok h
  obtain ⟨t8, h2, h⟩ := except_bind_ok h
  obtain ⟨d16, h3, h⟩ := except_bind_ok h
  obtain ⟨p16, h4, h⟩ := except_bind_ok h
  obtain ⟨d8, h5, h⟩ := except_bind_ok h
  obtain ⟨p8, h6, h⟩ := except_bind_ok h
  obtain ⟨rsA, h7, h⟩ := except_bind_ok h
  obtain ⟨rsB, h8, h⟩ := except_bind_ok h
  exact ⟨rsA, rsB, (Except.ok.inj h).symm⟩

/-- Every variable cell of `df_monthly` is a fixed point of 4-decimal
rounding. -/
lemma df_monthly_rounded {rs16 : List Row16} {rs8 : List Row8} {m : MRow}
    (hm : m ∈ df_monthly rs16 rs8) :
    m.NDVI.map round4 = m.NDVI ∧ m.EVI.map round4 = m.EVI ∧
    m.VCI.map round4 = m.VCI ∧ m.LAI.map round4 = m.LAI ∧
    m.FAPAR.map round4 = m.FAPAR ∧ m.LST.map round4 = m.LST := by
  unfold df_monthly at hm
  obtain ⟨m1, _, rfl⟩ := List.mem_map.mp hm
  exact ⟨map_round4_round4 _, map_round4_round4 _, map_round4_round4 _,
    map_round4_round4 _, map_round4_round4 _, map_round4_round4 _⟩

/-- The merge/assignment column arithmetic comes out to the exported
order. -/
lemma outCols_eq :
    outCols = ["name", "year", "month", "NDVI", "EVI", "VCI", "LAI",
      "FAPAR", "LST", "date"] := by
  decide

/-! ## The claims -/

/-- C1: the claim says the mean for a (name, year, month, variable) group
excludes values equal to -9999.  The aggregation has no sentinel filter: on
a group holding NDVI values 1 and -9999 the groupby-mean returns
(1 + -9999) / 2 = -4999, not the claimed mean 1 of the non-sentinel values.
This contradicts the script's own docstring, "Filters missing and invalid
values (-9999)". -/
theorem claim_C1_sentinel_averaged_in :
    monthly_16
      [⟨"X", 2020, 1, some 1, none, none⟩,
       ⟨"X", 2020, 1, some (-9999), none, none⟩]
      = [⟨"X", 2020, 1, some (-4999), none, none⟩] := by
  with_unfolding_all rfl

/-- C2: the claim says a month whose NDVI values are all -9999 must come
out missing.  The script instead returns the sentinel itself: the mean of
{-9999, -9999} is -9999, again contradicting the docstring's announced
sentinel filtering. -/
theorem claim_C2_all_sentinel_month_keeps_sentinel :
    monthly_16
      [⟨"X", 2020, 1, some (-9999), none, none⟩,
       ⟨"X", 2020, 1, some (-9999), none, none⟩]
      = [⟨"X", 2020, 1, some (-9999), none, none⟩] := by
  with_unfolding_all rfl

/-- C3: the key (name, year, month) is duplicate-free in each monthly
aggregate, and stays duplicate-free in the merged output after the outer
join (here stated for the final `df_monthly`, whose date and rounding steps
keep the keys). -/
theorem claim_C3_keys_unique :
    ∀ (rs16 : List Row16) (rs8 : List Row8),
      ((monthly_16 rs16).map keyA16).Nodup ∧
      ((monthly_8 rs8).map keyA8).Nodup ∧
      ((df_monthly rs16 rs8).map keyM).Nodup := by
  intro rs16 rs8
  have h16 : ((monthly_16 rs16).map keyA16).Nodup := by
    rw [keyA16_monthly_16]
    exact nodup_keysOf key16 rs16
  have h8 : ((monthly_8 rs8).map keyA8).Nodup := by
    rw [keyA8_monthly_8]
    exact nodup_keysOf key8 rs8
  refine ⟨h16, h8, ?_⟩
  rw [df_monthly_map_key]
  exact nodup_mergeOuter _ _ h16 h8

/-- C4: a key present in exactly one of the two monthly aggregates keeps a
row in the merged output, with the other aggregate's variable columns
missing (`none`, hence in particular not zero) rather than dropped. -/
theorem claim_C4_single_side_key_kept :
    ∀ (rs16 : List Row16) (rs8 : List Row8) (k : Key),
      (k ∈ (monthly_16 rs16).map keyA16 → k ∉ (monthly_8 rs8).map keyA8 →
        ∃ m, m ∈ df_monthly rs16 rs8 ∧ keyM m = k ∧
          m.LAI = none ∧ m.FAPAR = none ∧ m.LST = none) ∧
      (k ∈ (monthly_8 rs8).map keyA8 → k ∉ (monthly_16 rs16).map keyA16 →
        ∃ m, m ∈ df_monthly rs16 rs8 ∧ keyM m = k ∧
          m.NDVI = none ∧ m.EVI = none ∧ m.VCI = none) := by
  intro rs16 rs8 k
  constructor
  · intro hk16 hk8
    obtain ⟨a, ha, rfl⟩ := List.mem_map.mp hk16
    refine ⟨roundRow (addDateRow (mkLeft a)),
      mem_df_monthly_of_mem_merge (mkLeft_mem_mergeOuter _ _ a ha hk8),
      ?_, rfl, rfl, rfl⟩
    cases a
    rfl
  · intro hk8 hk16
    obtain ⟨b, hb, rfl⟩ := List.mem_map.mp hk8
    refine ⟨roundRow (addDateRow (mkRight b)),
      mem_df_monthly_of_mem_merge (mkRight_mem_mergeOuter _ _ b hb hk16),
      ?_, rfl, rfl, rfl⟩
    cases b
    rfl

/-- Witness for C4 at a concrete input: one 16-day group and no 8-day
data. -/
theorem claim_C4_witness :
    ∃ m, m ∈ df_monthly [⟨"A", 2020, 1, some 1, none, none⟩] [] ∧
      keyM m = ("A", 2020, 1) ∧
      m.LAI = none ∧ m.FAPAR = none ∧ m.LST = none :=
  (claim_C4_single_side_key_kept [⟨"A", 2020, 1, some 1, none, none⟩] []
    ("A", 2020, 1)).1 (by decide) (by decide)

/-- C5: every output row's `date` is the first calendar day of that row's
(year, month). -/
theorem claim_C5_date_is_month_start :
    ∀ (rs16 : List Row16) (rs8 : List Row8), ∀ m ∈ df_monthly rs16 rs8,
      m.date = ⟨m.year, m.month, 1⟩ := by
  intro rs16 rs8 m hm
  unfold df_monthly at hm
  obtain ⟨m1, hm1, rfl⟩ := List.mem_map.mp hm
  obtain ⟨m0, _, rfl⟩ := List.mem_map.mp hm1
  cases m0
  rfl

/-- Witness for C5 at a concrete input. -/
theorem claim_C5_witness :
    (⟨"A", 2020, 1, some 1, none, none, none, none, none,
      ⟨2020, 1, 1⟩⟩ : MRow).date = (⟨2020, 1, 1⟩ : DateYMD) :=
  claim_C5_date_is_month_start [⟨"A", 2020, 1, some 1, none, none⟩] [] _
    (by
      rw [show df_monthly [⟨"A", 2020, 1, some 1, none, none⟩]
            ([] : List Row8)
          = [⟨"A", 2020, 1, some 1, none, none, none, none, none,
              ⟨2020, 1, 1⟩⟩] from by with_unfolding_all rfl]
      exact List.mem_singleton_self _)

/-- C7: 4-decimal rounding is idempotent, on values and on whole rounded
rows. -/
theorem claim_C7_round_idempotent :
    (∀ q : ℚ, round4 (round4 q) = round4 q) ∧
    (∀ m : MRow, roundRow (roundRow m) = roundRow m) :=
  ⟨round4_round4, roundRow_roundRow⟩

/-- C6: the spec's end-to-end example.  Two February 2020 rows for station
"X" with NDVI 0.40 and 0.60 in the 16-day file and one row with LST 300.0
in the 8-day file produce exactly one output row: name "X", year 2020,
month 2, NDVI 0.5, LAI missing, LST 300, date 2020-02-01 (EVI, VCI and
FAPAR, absent from the inputs, are missing too), written to
`Monthly_data/MODIS_Monthly_X.xlsx`. -/
theorem claim_C6_end_to_end_example :
    run exParse exFS "X" output_dir =
      .ok ⟨output_dir, "Monthly_data/MODIS_Monthly_X.xlsx", outCols,
        [⟨"X", 2020, 2, some (1/2), none, none, none, none, some 300,
          ⟨2020, 2, 1⟩⟩]⟩ := by
  with_unfolding_all rfl

/-- C10: what the aggregation actually computes per group: the arithmetic
mean of the group's non-NaN values — a mix of NaN and numbers averages
only the numbers, with any -9999 among them — and an all-NaN group comes
out NaN rather than raising. -/
theorem claim_C10_mean_skips_nan_only :
    ∀ (rs16 : List Row16) (rs8 : List Row8) (k : Key),
      (k ∈ rs16.map key16 →
        ∃ a, a ∈ monthly_16 rs16 ∧ keyA16 a = k ∧
          a.NDVI = meanOpt (groupVals key16 Row16.NDVI rs16 k) ∧
          a.EVI = meanOpt (groupVals key16 Row16.EVI rs16 k) ∧
          a.VCI = meanOpt (groupVals key16 Row16.VCI rs16 k)) ∧
      (k ∈ rs8.map key8 →
        ∃ b, b ∈ monthly_8 rs8 ∧ keyA8 b = k ∧
          b.LAI = meanOpt (groupVals key8 Row8.LAI rs8 k) ∧
          b.FAPAR = meanOpt (groupVals key8 Row8.FAPAR rs8 k) ∧
          b.LST = meanOpt (groupVals key8 Row8.LST rs8 k)) ∧
      (∀ l : List ℚ,
        (l = [] → meanOpt l = none) ∧
        (l ≠ [] → meanOpt l = some (l.sum / l.length))) := by
  intro rs16 rs8 k
  refine ⟨?_, ?_, ?_⟩
  · intro hk
    have hk' : k ∈ keysOf key16 rs16 := List.mem_dedup.mpr hk
    obtain ⟨s, y, mo⟩ := k
    exact ⟨_, List.mem_map_of_mem _ hk', rfl, rfl, rfl, rfl⟩
  · intro hk
    have hk' : k ∈ keysOf key8 rs8 := List.mem_dedup.mpr hk
    obtain ⟨s, y, mo⟩ := k
    exact ⟨_, List.mem_map_of_mem _ hk', rfl, rfl, rfl, rfl⟩
  · intro l
    refine ⟨fun h => by rw [h]; rfl, fun h => ?_⟩
    cases l with
    | nil => exact absurd rfl h
    | cons a t => rfl

/-- C8: the script's failures propagate.  A missing 16-day file fails as
file-not-found (likewise the 8-day file, read second); a missing `date`
column fails as a key error; an unparseable date value fails as a parse
error.  No failure is caught or retried, and an erroring run produces no
`Written` file: its only success channel is `.ok`. -/
theorem claim_C8_failures_propagate :
    ∀ (pd : String → Option DateYMD) (fs : String → Option RawTable)
      (station dir : String),
      (fs (file_16day station) = none →
        run pd fs station dir = .error (.fileNotFound (file_16day station))) ∧
      (∀ t16, fs (file_16day station) = some t16 →
        fs (file_8day station) = none →
        run pd fs station dir = .error (.fileNotFound (file_8day station))) ∧
      (∀ t16 t8, fs (file_16day station) = some t16 →
        fs (file_8day station) = some t8 → "date" ∉ t16.cols →
        run pd fs station dir = .error (.keyError "date")) ∧
      (∀ t16 t8, fs (file_16day station) = some t16 →
        fs (file_8day station) = some t8 → "date" ∈ t16.cols →
        (∃ c ∈ t16.rows.map (fun r => r "date"), pd c.asStr = none) →
        ∃ s, pd s = none ∧
          run pd fs station dir = .error (.parseError s)) ∧
      (∀ t16 t8 p16, fs (file_16day station) = some t16 →
        fs (file_8day station) = some t8 → "date" ∈ t16.cols →
        parseCol pd (t16.rows.map (fun r => r "date")) = .ok p16 →
        "date" ∉ t8.cols →
        run pd fs station dir = .error (.keyError "date")) ∧
      (∀ t16 t8 p16, fs (file_16day station) = some t16 →
        fs (file_8day station) = some t8 → "date" ∈ t16.cols →
        parseCol pd (t16.rows.map (fun r => r "date")) = .ok p16 →
        "date" ∈ t8.cols →
        (∃ c ∈ t8.rows.map (fun r => r "date"), pd c.asStr = none) →
        ∃ s, pd s = none ∧
          run pd fs station dir = .error (.parseError s)) ∧
      (∀ t16 t8 p16 p8, fs (file_16day station) = some t16 →
        fs (file_8day station) = some t8 → "date" ∈ t16.cols →
        parseCol pd (t16.rows.map (fun r => r "date")) = .ok p16 →
        "date" ∈ t8.cols →
        parseCol pd (t8.rows.map (fun r => r "date")) = .ok p8 →
        (∃ c ∈ ["name", "year", "month"] ++ vars_16, c ∉ t16.cols) →
        ∃ c, c ∉ t16.cols ∧
          run pd fs station dir = .error (.keyError c)) ∧
      (∀ t16 t8 p16 p8 rs16, fs (file_16day station) = some t16 →
        fs (file_8day station) = some t8 → "date" ∈ t16.cols →
        parseCol pd (t16.rows.map (fun r => r "date")) = .ok p16 →
        "date" ∈ t8.cols →
        parseCol pd (t8.rows.map (fun r => r "date")) = .ok p8 →
        extract16 t16 = .ok rs16 →
        (∃ c ∈ ["name", "year", "month"] ++ vars_8, c ∉ t8.cols) →
        ∃ c, c ∉ t8.cols ∧
          run pd fs station dir = .error (.keyError c)) ∧
      (∀ e, run pd fs station dir = .error e →
        ∀ w, run pd fs station dir ≠ .ok w) := by
  intro pd fs station dir
  refine ⟨?_, ?_, ?_, ?_, ?_, ?_, ?_, ?_, ?_⟩
  · intro h
    simp [run, readCSV, h, Bind.bind, Except.bind]
  · intro t16 h1 h2
    simp [run, readCSV, h1, h2, Bind.bind, Except.bind]
  · intro t16 t8 h1 h2 h3
    simp [run, readCSV, h1, h2, getCol, h3, Bind.bind, Except.bind]
  · intro t16 t8 h1 h2 h3 h4
    obtain ⟨s, hs, hpe⟩ := parseCol_error pd _ h4
    refine ⟨s, hs, ?_⟩
    simp [run, readCSV, h1, h2, getCol, h3, hpe, Bind.bind, Except.bind]
  · intro t16 t8 p16 h1 h2 h3 h4 h5
    simp [run, readCSV, h1, h2, getCol, h3, h4, h5, Bind.bind, Except.bind]
  · intro t16 t8 p16 h1 h2 h3 h4 h5 h6
    obtain ⟨s, hs, hpe⟩ := parseCol_error pd _ h6
    refine ⟨s, hs, ?_⟩
    simp [run, readCSV, h1, h2, getCol, h3, h4, h5, hpe, Bind.bind,
      Except.bind]
  · intro t16 t8 p16 p8 h1 h2 h3 h4 h5 h6 h7
    obtain ⟨c, hc, hreq⟩ := requireCols_error t16 _ h7
    refine ⟨c, hc, ?_⟩
    simp only [List.cons_append, List.nil_append] at hreq
    simp [run, readCSV, h1, h2, getCol, h3, h4, h5, h6, extract16, hreq,
      Bind.bind, Except.bind]
  · intro t16 t8 p16 p8 rs16A h1 h2 h3 h4 h5 h6 h7 h8
    obtain ⟨c, hc, hreq⟩ := requireCols_error t8 _ h8
    refine ⟨c, hc, ?_⟩
    simp only [List.cons_append, List.nil_append] at hreq
    simp [run, readCSV, h1, h2, getCol, h3, h4, h5, h6, h7, extract8, hreq,
      Bind.bind, Except.bind]
  · intro e he w hw
    rw [he] at hw
    exact Except.noConfusion hw

/-- Witness for C8 at a concrete input: an empty filesystem. -/
theorem claim_C8_witness :
    run (fun _ => none) (fun _ => none) "S" "D"
      = .error (.fileNotFound (file_16day "S")) :=
  (claim_C8_failures_propagate (fun _ => none) (fun _ => none) "S" "D").1 rfl

/-- C9: a successful run writes the one file
`<output_dir>/MODIS_Monthly_<station>.xlsx` with the default output
directory `Monthly_data` ensured beforehand, the exported columns being, in
order, name, year, month, NDVI, EVI, VCI, LAI, FAPAR, LST, date, and every
variable cell a fixed point of the 4-decimal rounding. -/
theorem claim_C9_output_shape :
    ∀ (pd : String → Option DateYMD) (fs : String → Option RawTable)
      (station : String) (w : Written),
      run pd fs station output_dir = .ok w →
      w.path = output_dir ++ "/" ++ ("MODIS_Monthly_" ++ station ++ ".xlsx") ∧
      output_dir = "Monthly_data" ∧
      w.dirEnsured = output_dir ∧
      w.columns = ["name", "year", "month", "NDVI", "EVI", "VCI", "LAI",
        "FAPAR", "LST", "date"] ∧
      ∀ m ∈ w.table,
        m.NDVI.map round4 = m.NDVI ∧ m.EVI.map round4 = m.EVI ∧
        m.VCI.map round4 = m.VCI ∧ m.LAI.map round4 = m.LAI ∧
        m.FAPAR.map round4 = m.FAPAR ∧ m.LST.map round4 = m.LST := by
  intro pd fs station w h
  obtain ⟨rsA, rsB, rfl⟩ := run_ok_inv h
  refine ⟨rfl, rfl, rfl, outCols_eq, ?_⟩
  intro m hm
  exact df_monthly_rounded hm

/-- Witness for C9 at a concrete input: the example run. -/
theorem claim_C9_witness :
    exWritten.path
      = output_dir ++ "/" ++ ("MODIS_Monthly_" ++ "X" ++ ".xlsx") ∧
    output_dir = "Monthly_data" ∧
    exWritten.dirEnsured = output_dir ∧
    exWritten.columns = ["name", "year", "month", "NDVI", "EVI", "VCI",
      "LAI", "FAPAR", "LST", "date"] ∧
    (∀ m ∈ exWritten.table,
      m.NDVI.map round4 = m.NDVI ∧ m.EVI.map round4 = m.EVI ∧
      m.VCI.map round4 = m.VCI ∧ m.LAI.map round4 = m.LAI ∧
      m.FAPAR.map round4 = m.FAPAR ∧ m.LST.map round4 = m.LST) :=
  claim_C9_output_shape exParse exFS "X" exWritten
    (by with_unfolding_all rfl)

/-- Witness for C10 at a concrete input: a group mixing a NaN, a plain
value and a -9999 value. -/
theorem claim_C10_witness :
    ∃ a, a ∈ monthly_16
        [⟨"A", 2020, 1, some 2, none, none⟩,
         ⟨"A", 2020, 1, none, none, none⟩,
         ⟨"A", 2020, 1, some (-9999), none, none⟩] ∧
      keyA16 a = ("A", 2020, 1) ∧
      a.NDVI = meanOpt (groupVals key16 Row16.NDVI
        [⟨"A", 2020, 1, some 2, none, none⟩,
         ⟨"A", 2020, 1, none, none, none⟩,
         ⟨"A", 2020, 1, some (-9999), none, none⟩] ("A", 2020, 1)) ∧
      a.EVI = meanOpt (groupVals key16 Row16.EVI
        [⟨"A", 2020, 1, some 2, none, none⟩,
         ⟨"A", 2020, 1, none, none, none⟩,
         ⟨"A", 2020, 1, some (-9999), none, none⟩] ("A", 2020, 1)) ∧
      a.VCI = meanOpt (groupVals key16 Row16.VCI
        [⟨"A", 2020, 1, some 2, none, none⟩,
         ⟨"A", 2020, 1, none, none, none⟩,
         ⟨"A", 2020, 1, some (-9999), none, none⟩] ("A", 2020, 1)) :=
  (claim_C10_mean_skips_nan_only
    [⟨"A", 2020, 1, some 2, none, none⟩,
     ⟨"A", 2020, 1, none, none, none⟩,
     ⟨"A", 2020, 1, some (-9999), none, none⟩] []
    ("A", 2020, 1)).1 (by decide)

end MODIS
